import Mathlib

/-!
Verification development for the CV repository's retrieval-augmented query
engine: the message adapter, the vector-store search, the CV search tool,
the agent configuration wiring, and the chat HTTP route.

JavaScript runtime values that cross the validation boundaries are modelled
by the inductive type `Val`; numbers are modelled as rationals, which is
exact for the order and threshold comparisons the properties concern.
-/

namespace CVSpec

/-- Model of a JavaScript/JSON runtime value as it reaches the validation
layers: null, undefined, booleans, numbers (as rationals), strings, arrays
and plain objects (association lists of fields). -/
inductive Val where
  | vNull
  | vUndef
  | vBool (b : Bool)
  | vNum (q : ℚ)
  | vStr (s : String)
  | vArr (elems : List Val)
  | vObj (fields : List (String × Val))

/-- Property access `obj[key]` on an object's field list: the first binding
for the key, `none` when the property is absent (JS `undefined`). -/
def getProp : List (String × Val) → String → Option Val
  | [], _ => none
  | (k, v) :: rest, key => if k = key then some v else getProp rest key

/-- Array.isArray check. -/
def Val.isArray : Val → Bool
  | .vArr _ => true
  | _ => false

/-- Internal model message (types.ts `ModelMessage`): role and flat text
content. The source narrows `role` with a cast, so the model keeps it as a
string and the role invariant is proved, not assumed. -/
structure ModelMessage where
  role : String
  content : String
deriving DecidableEq, Repr

/-- From message-adapter.ts `isValidUIMessage` (lines 15-29): the entry must
be a non-null object whose `role` property is one of the strings user,
assistant, system and whose `parts` property is an array. -/
def isValidUIMessage (msg : Val) : Bool :=
  match msg with
  | .vObj fields =>
      (match getProp fields "role" with
       | some (.vStr role) => role == "user" || role == "assistant" || role == "system"
       | _ => false)
      &&
      (match getProp fields "parts" with
       | some (.vArr _) => true
       | _ => false)
  | _ => false

/-- A content part of a model message as produced by the AI SDK conversion:
either a text part carrying its text, or some other part kind (tool call,
tool result, step marker, ...). -/
inductive SDKPart where
  | text (s : String)
  | other

/-- Content of an SDK model message: a plain string or a list of parts.
These are the two content shapes the adapter handles; its remaining branch
skips anything else and is unreachable over this type. -/
inductive SDKContent where
  | str (s : String)
  | parts (ps : List SDKPart)

/-- An SDK model message: a role and content. -/
structure SDKMessage where
  role : String
  content : SDKContent

/-- The `role` property of a (valid) UI message, read as a string. -/
def roleOf (msg : Val) : String :=
  match msg with
  | .vObj fields =>
      match getProp fields "role" with
      | some (.vStr r) => r
      | _ => ""
  | _ => ""

/-- The `parts` property of a (valid) UI message, read as an array. -/
def partsOf (msg : Val) : List Val :=
  match msg with
  | .vObj fields =>
      match getProp fields "parts" with
      | some (.vArr ps) => ps
      | _ => []
  | _ => []

/-- One UI-message part converted to an SDK content part: an object whose
`type` is the string text and whose `text` is a string becomes a text part,
anything else a non-text part. -/
def convertPart (part : Val) : SDKPart :=
  match part with
  | .vObj fields =>
      match getProp fields "type", getProp fields "text" with
      | some (.vStr t), some (.vStr s) => if t == "text" then .text s else .other
      | _, _ => .other
  | _ => .other

/-- Modelled from the spec: the AI SDK function `convertToModelMessages`
(external to this repository) converts each valid UI message into a model
message carrying the same role, with the message's parts as content parts
in order (text parts keep their text); message order is preserved. -/
def convertOne (msg : Val) : SDKMessage :=
  { role := roleOf msg, content := .parts ((partsOf msg).map convertPart) }

/-- Modelled from the spec: `convertToModelMessages` over a list of valid
UI messages, one SDK model message per input message, in order. -/
def convertToModelMessages (msgs : List Val) : List SDKMessage :=
  msgs.map convertOne

/-- Text extraction from SDK message content (message-adapter.ts lines
67-84): a string content is used verbatim; an array content keeps only the
text parts' text, concatenated in order. -/
def extractText : SDKContent → String
  | .str s => s
  | .parts ps =>
      String.join (ps.filterMap fun p =>
        match p with
        | .text s => some s
        | .other => none)

/-- The per-message step of the adapter's mapping loop (message-adapter.ts
lines 67-94): extract the text content, skip the message when it is empty,
otherwise emit the internal model message. -/
def mapSDKMessage (m : SDKMessage) : Option ModelMessage :=
  let textContent := extractText m.content
  if textContent.length == 0 then none
  else some { role := m.role, content := textContent }

/-- `UIMessageAdapter.toModelMessages` (message-adapter.ts lines 45-97):
non-arrays yield the empty list; entries failing `isValidUIMessage` are
filtered out; the remaining messages are converted via the SDK and mapped
to internal messages, dropping those whose extracted text is empty. -/
def toModelMessages (input : Val) : List ModelMessage :=
  match input with
  | .vArr uiMessages =>
      let validMessages := uiMessages.filter isValidUIMessage
      if validMessages.length == 0 then []
      else (convertToModelMessages validMessages).filterMap mapSDKMessage
  | _ => []

/-- The input of spec Scenario 2: an entry with an invalid role, an entry
with no role, and a valid user message with text valid. -/
def scenario2Input : Val :=
  .vArr
    [ .vObj [("role", .vStr "invalid"), ("parts", .vArr [])],
      .vObj [("parts", .vArr [.vObj [("type", .vStr "text"), ("text", .vStr "x")]])],
      .vObj [("role", .vStr "user"),
             ("parts", .vArr [.vObj [("type", .vStr "text"), ("text", .vStr "valid")]])] ]

/-- Agent configuration (types.ts `AgentConfig`, lines 97-105). -/
structure AgentConfig where
  modelId : String
  embeddingModelId : String
  maxToolSteps : ℕ
  defaultSearchLimit : ℕ
  similarityThreshold : ℚ
  requestTimeoutMs : ℕ
deriving DecidableEq, Repr

/-- types.ts `DEFAULT_AGENT_CONFIG` (lines 107-114). -/
def DEFAULT_AGENT_CONFIG : AgentConfig :=
  { modelId := "anthropic/claude-opus-4-5"
    embeddingModelId := "openai/text-embedding-3-small"
    maxToolSteps := 5
    defaultSearchLimit := 5
    similarityThreshold := 3/10
    requestTimeoutMs := 60000 }

/-- Caller overrides of the agent configuration (`Partial AgentConfig` in
createCVAgent's dependencies): each field optionally present. -/
structure AgentConfigOverrides where
  modelId : Option String := none
  embeddingModelId : Option String := none
  maxToolSteps : Option ℕ := none
  defaultSearchLimit : Option ℕ := none
  similarityThreshold : Option ℚ := none
  requestTimeoutMs : Option ℕ := none

/-- The config merge of createCVAgent (message-adapter.ts lines 221-224):
spread of DEFAULT_AGENT_CONFIG overridden by the caller's fields. -/
def mergeAgentConfig (o : AgentConfigOverrides) : AgentConfig :=
  { modelId := o.modelId.getD DEFAULT_AGENT_CONFIG.modelId
    embeddingModelId := o.embeddingModelId.getD DEFAULT_AGENT_CONFIG.embeddingModelId
    maxToolSteps := o.maxToolSteps.getD DEFAULT_AGENT_CONFIG.maxToolSteps
    defaultSearchLimit := o.defaultSearchLimit.getD DEFAULT_AGENT_CONFIG.defaultSearchLimit
    similarityThreshold := o.similarityThreshold.getD DEFAULT_AGENT_CONFIG.similarityThreshold
    requestTimeoutMs := o.requestTimeoutMs.getD DEFAULT_AGENT_CONFIG.requestTimeoutMs }

/-- Metadata of a stored CV chunk after validation against
cvNodeMetadataSchema (types.ts lines 45-49): three optional string fields. -/
structure CVNodeMetadata where
  node_id : Option String
  category : Option String
  header : Option String
deriving DecidableEq, Repr

/-- A validated vector-store search result (types.ts embeddingResultSchema,
lines 53-57). -/
structure EmbeddingResult where
  content : String
  metadata : CVNodeMetadata
  similarity : ℚ
deriving DecidableEq, Repr

/-- zod `z.string().optional()` on an object property: an absent property
or undefined parses to none, a string to itself, anything else fails. -/
def parseOptionalString : Option Val → Option (Option String)
  | none => some none
  | some .vUndef => some none
  | some (.vStr s) => some (some s)
  | some _ => none

/-- cvNodeMetadataSchema.safeParse: the value must be an object and each of
node_id, category, header must be absent or a string. -/
def parseMetadata (v : Val) : Option CVNodeMetadata :=
  match v with
  | .vObj fields => do
      let nid ← parseOptionalString (getProp fields "node_id")
      let cat ← parseOptionalString (getProp fields "category")
      let hdr ← parseOptionalString (getProp fields "header")
      pure ⟨nid, cat, hdr⟩
  | _ => none

/-- A row as returned by the SQL query of NeonVectorStore.search: content
and metadata straight from the table columns (arbitrary stored values), and
the similarity the query itself computes (always a number). -/
structure Row where
  content : Val
  metadata : Val
  similarity : ℚ

/-- NeonVectorStore.parseResult (vector-store.service.ts lines 64-76):
embeddingResultSchema.safeParse on the row; a failure is logged and yields
null, modelled as none. -/
def parseResult (row : Row) : Option EmbeddingResult :=
  match row.content with
  | .vStr s => (parseMetadata row.metadata).map fun m => ⟨s, m, row.similarity⟩
  | _ => none

/-- A stored chunk of the cv_embeddings table, for one fixed query
embedding: the content and metadata columns, and the cosine distance
`embedding <=> query` that pgvector computes for the chunk (the vector
arithmetic is abstracted into this per-query distance). -/
structure StoredChunk where
  content : Val
  metadata : Val
  dist : ℚ

/-- Ordering of stored chunks by cosine distance to the query, the ORDER BY
relation of the SQL query. -/
def chunkLE (a b : StoredChunk) : Prop := a.dist ≤ b.dist

instance : DecidableRel chunkLE := fun a b => inferInstanceAs (Decidable (a.dist ≤ b.dist))

instance : IsTotal StoredChunk chunkLE := ⟨fun a b => le_total a.dist b.dist⟩

instance : IsTrans StoredChunk chunkLE := ⟨fun _ _ _ h1 h2 => le_trans h1 h2⟩

/-- The SQL query of NeonVectorStore.search (vector-store.service.ts lines
45-53): each row gains `similarity = 1 - distance`, rows are ordered by
distance ascending, and the first `limit` rows are returned. -/
def vectorSearchQuery (table : List StoredChunk) (limit : ℕ) : List Row :=
  ((List.insertionSort chunkLE table).take limit).map
    fun c => ⟨c.content, c.metadata, 1 - c.dist⟩

/-- The post-query step of NeonVectorStore.search (lines 56-58): map the
rows through parseResult and keep exactly the non-null results whose
similarity is at least the threshold. -/
def thresholdFilter (threshold : ℚ) (row : Row) : Option EmbeddingResult :=
  match parseResult row with
  | some r => if threshold ≤ r.similarity then some r else none
  | none => none

/-- NeonVectorStore.search (vector-store.service.ts lines 32-59) for one
query embedding: the SQL query followed by parse-and-threshold filtering. -/
def search (table : List StoredChunk) (limit : ℕ) (threshold : ℚ) : List EmbeddingResult :=
  (vectorSearchQuery table limit).filterMap (thresholdFilter threshold)

/-- Search options with the defaulting of lines 36-39: absent fields fall
back to DEFAULT_AGENT_CONFIG. -/
structure SearchOptions where
  limit : Option ℕ := none
  threshold : Option ℚ := none

/-- NeonVectorStore.search as called with an options object. -/
def searchWithOptions (table : List StoredChunk) (opts : SearchOptions) : List EmbeddingResult :=
  search table (opts.limit.getD DEFAULT_AGENT_CONFIG.defaultSearchLimit)
    (opts.threshold.getD DEFAULT_AGENT_CONFIG.similarityThreshold)

/-- JS Math.round: nearest integer, ties rounded toward positive infinity. -/
def jsRound (q : ℚ) : ℚ := (⌊q + 1/2⌋ : ℤ)

/-- `Math.round(x * 1000) / 1000` (cv-search.tool.ts line 102). -/
def roundTo3 (q : ℚ) : ℚ := jsRound (q * 1000) / 1000

/-- A document of the Search Tool output (types.ts CVSearchDocument). -/
structure CVSearchDocument where
  nodeId : String
  content : String
  category : String
  similarity : ℚ
deriving DecidableEq, Repr

/-- The Search Tool output (types.ts CVSearchResult). -/
structure CVSearchResult where
  query : String
  found : Bool
  documents : List CVSearchDocument
deriving DecidableEq, Repr

/-- One embedding result transformed to a tool document (cv-search.tool.ts
lines 98-103): node_id falls back to UNKNOWN, category to general, and the
similarity is rounded to 3 decimal places. -/
def toolDocument (r : EmbeddingResult) : CVSearchDocument :=
  { nodeId := r.metadata.node_id.getD "UNKNOWN"
    content := r.content
    category := r.metadata.category.getD "general"
    similarity := roundTo3 r.similarity }

/-- The tail of the tool's execute (cv-search.tool.ts lines 86-104), given
the results the vector store returned: empty results yield found false with
an empty document list, otherwise found true with the mapped documents. -/
def cvSearchExecute (query : String) (results : List EmbeddingResult) : CVSearchResult :=
  if results.length = 0 then { query := query, found := false, documents := [] }
  else { query := query, found := true, documents := results.map toolDocument }

/-- The (limit, threshold) pair passed to vectorStore.search. -/
structure SearchCall where
  limit : ℕ
  threshold : ℚ
deriving DecidableEq, Repr

/-- The search call the tool performs (cv-search.tool.ts lines 74-83):
limit = maxResults ?? DEFAULT_AGENT_CONFIG.defaultSearchLimit and threshold
= DEFAULT_AGENT_CONFIG.similarityThreshold, both read from the module-level
default config, not from any agent instance. -/
def cvSearchToolSearchCall (maxResults : Option ℕ) : SearchCall :=
  { limit := maxResults.getD DEFAULT_AGENT_CONFIG.defaultSearchLimit
    threshold := DEFAULT_AGENT_CONFIG.similarityThreshold }

/-- The search call performed by the tool of an agent built by createCVAgent
(message-adapter.ts lines 217-237): createCVAgent merges its config but
constructs the tool via createCVSearchTool with only the embedding service
and the vector store as dependencies, so the merged config never reaches
the tool and the call is cvSearchToolSearchCall for every agent. -/
def createCVAgentSearchCall (_configOverrides : AgentConfigOverrides)
    (maxResults : Option ℕ) : SearchCall :=
  cvSearchToolSearchCall maxResults

/-- The full Search Tool invocation against a store (cv-search.tool.ts
execute): the query embedding is produced externally, so the store is given
as chunks with their per-query distances; the store search runs with the
tool's search call and the results are mapped to the tool output. -/
def cvSearchTool (query : String) (maxResults : Option ℕ)
    (table : List StoredChunk) : CVSearchResult :=
  cvSearchExecute query
    (search table (cvSearchToolSearchCall maxResults).limit
      (cvSearchToolSearchCall maxResults).threshold)

/-- JS truthiness of an environment value as used by `!databaseUrl ||
!apiKey` (chat.ts line 183): undefined and the empty string are falsy. -/
def envTruthy : Option String → Bool
  | none => false
  | some s => s != ""

/-- types.ts messagePartSchema (line 13): any object with a string `type`
field (passthrough keeps the remaining keys). -/
def isMessagePart (v : Val) : Bool :=
  match v with
  | .vObj fields =>
      match getProp fields "type" with
      | some (.vStr _) => true
      | _ => false
  | _ => false

/-- types.ts uiMessageSchema (lines 15-19): an object with a string id, a
role among user, assistant, system, and parts an array of message parts. -/
def isUIMessageSchema (v : Val) : Bool :=
  match v with
  | .vObj fields =>
      (match getProp fields "id" with
       | some (.vStr _) => true
       | _ => false)
      &&
      (match getProp fields "role" with
       | some (.vStr r) => r == "user" || r == "assistant" || r == "system"
       | _ => false)
      &&
      (match getProp fields "parts" with
       | some (.vArr ps) => ps.all isMessagePart
       | _ => false)
  | _ => false

/-- chatRequestSchema.safeParse (types.ts lines 21-23) on the request body:
the body must be an object whose messages field is an array of at least one
schema-valid UI message; on success the messages are returned (zod's key
stripping does not touch the role and parts fields the adapter reads, so
the original message values stand in for the parsed ones). -/
def chatRequestParse (body : Val) : Option (List Val) :=
  match body with
  | .vObj fields =>
      match getProp fields "messages" with
      | some (.vArr msgs) =>
          if 1 ≤ msgs.length && msgs.all isUIMessageSchema then some msgs else none
      | _ => none
  | _ => none

/-- Outcome of the chat POST route: a configuration error response, a
validation error response, or a streamed agent response carrying the
adapted messages (the only outcome that invokes embedding or model calls). -/
inductive ChatResponse where
  | configError
  | validationError
  | streamed (messages : List ModelMessage)
deriving DecidableEq, Repr

/-- HTTP status of each outcome: configurationError responds 500,
validationError 400 (chat.ts lines 157-163), a streamed response 200. -/
def responseStatus : ChatResponse → ℕ
  | .configError => 500
  | .validationError => 400
  | .streamed _ => 200

/-- Whether the outcome reaches the agent (and hence any embedding or model
call): only a streamed response does; both error responses return before
the agent is created. -/
def modelCallMade : ChatResponse → Bool
  | .streamed _ => true
  | _ => false

/-- The POST handler (chat.ts lines 178-216): missing or empty environment
configuration is rejected first with a configuration error; then the body
is validated against chatRequestSchema; then the messages are adapted and
an empty adapted list is rejected as a validation error; only then is the
agent created and streaming started. -/
def chatPOST (databaseUrl apiKey : Option String) (body : Val) : ChatResponse :=
  if !envTruthy databaseUrl || !envTruthy apiKey then .configError
  else
    match chatRequestParse body with
    | none => .validationError
    | some msgs =>
        let modelMessages := toModelMessages (.vArr msgs)
        if modelMessages.length = 0 then .validationError
        else .streamed modelMessages

/-- A three-chunk demonstration table for one query: two well-formed chunks
and one malformed chunk (null content and metadata) in the middle of the
distance order. -/
def demoTable : List StoredChunk :=
  [ ⟨.vStr "good1", .vObj [("node_id", .vStr "NODE_01")], 1/10⟩,
    ⟨.vNull, .vNull, 2/10⟩,
    ⟨.vStr "good2", .vObj [], 3/10⟩ ]

/-- The parsed result of the first demonstration chunk. -/
def demoResult1 : EmbeddingResult := ⟨"good1", ⟨some "NODE_01", none, none⟩, 9/10⟩

/-- The parsed result of the third demonstration chunk. -/
def demoResult2 : EmbeddingResult := ⟨"good2", ⟨none, none, none⟩, 7/10⟩

/-- An embedding result whose metadata has neither node_id nor category. -/
def demoNoMeta : EmbeddingResult := ⟨"text", ⟨none, none, none⟩, 1/2⟩

/-- A schema-valid UI message whose parts array is empty, so its adapted
content is empty. -/
def emptyPartsMsg : Val :=
  .vObj [("id", .vStr "1"), ("role", .vStr "user"), ("parts", .vArr [])]

/-- A valid UI message's role string is one of the three allowed roles. -/
theorem roleOf_of_valid {msg : Val} (h : isValidUIMessage msg = true) :
    roleOf msg = "user" ∨ roleOf msg = "assistant" ∨ roleOf msg = "system" := by
  cases msg
  case vObj fields =>
    simp only [isValidUIMessage, Bool.and_eq_true] at h
    obtain ⟨h1, -⟩ := h
    revert h1
    rcases hr : getProp fields "role" with _ | v
    · simp
    · cases v
      case vStr s =>
        intro h1
        simp only [roleOf, hr]
        simp at h1
        tauto
      all_goals (intro h1; simp at h1)
  all_goals simp [isValidUIMessage] at h

/-- C4: the Message Adapter excludes every entry that is null, lacks a
string role, has a role outside user/assistant/system, or whose parts field
is not an array, and preserves the valid entries' relative order: the output
is an order-preserving map-filter of exactly the entries accepted by
`isValidUIMessage`, whose acceptance condition is characterised; on the
Scenario 2 input the output is exactly the single converted valid message. -/
theorem adapter_excludes_malformed_preserves_order :
    (∀ msgs : List Val,
      toModelMessages (.vArr msgs)
        = (msgs.filter isValidUIMessage).filterMap (fun m => mapSDKMessage (convertOne m)))
    ∧ (∀ msg : Val,
        isValidUIMessage msg = true
          ↔ ∃ fields, msg = .vObj fields
              ∧ (∃ r, getProp fields "role" = some (.vStr r)
                  ∧ (r = "user" ∨ r = "assistant" ∨ r = "system"))
              ∧ ∃ ps, getProp fields "parts" = some (.vArr ps))
    ∧ toModelMessages scenario2Input = [{ role := "user", content := "valid" }] := by
  refine ⟨?_, ?_, by decide⟩
  · intro msgs
    simp only [toModelMessages, convertToModelMessages]
    split
    · rename_i h
      simp only [beq_iff_eq, List.length_eq_zero] at h
      rw [h]
      rfl
    · rw [List.filterMap_map]
      rfl
  · intro msg
    cases msg <;> simp only [isValidUIMessage, Bool.and_eq_true]
    case vObj fields =>
      constructor
      · rintro ⟨h1, h2⟩
        refine ⟨fields, rfl, ?_, ?_⟩
        · revert h1
          rcases hr : getProp fields "role" with _ | v
          · simp
          · cases v
            case vStr s =>
              intro h1
              refine ⟨s, rfl, ?_⟩
              simp at h1
              tauto
            all_goals (intro h1; simp at h1)
        · revert h2
          rcases hp : getProp fields "parts" with _ | v
          · simp
          · cases v
            case vArr ps => intro _; exact ⟨ps, rfl⟩
            all_goals (intro h2; simp at h2)
      · rintro ⟨f, hf, ⟨r, hr, hrs⟩, ⟨ps, hps⟩⟩
        injection hf with h
        subst h
        simp [hr, hps]
        tauto
    all_goals simp

/-- C5: every message in the Message Adapter's output has non-empty string
content (empty-content messages are dropped) and a role among user,
assistant and system. -/
theorem adapter_output_invariant (v : Val) (m : ModelMessage)
    (hm : m ∈ toModelMessages v) :
    m.content ≠ "" ∧ (m.role = "user" ∨ m.role = "assistant" ∨ m.role = "system") := by
  cases v
  case vArr msgs =>
    simp only [toModelMessages] at hm
    split at hm
    · exact absurd hm (List.not_mem_nil m)
    · rw [convertToModelMessages, List.filterMap_map] at hm
      obtain ⟨msg, hmsg, heq⟩ := List.mem_filterMap.mp hm
      have hvalid : isValidUIMessage msg = true := (List.mem_filter.mp hmsg).2
      simp only [Function.comp, mapSDKMessage] at heq
      split at heq
      · exact absurd heq (by simp)
      · rename_i hne
        obtain rfl := Option.some_injective _ heq
        refine ⟨?_, roleOf_of_valid hvalid⟩
        intro hc
        apply hne
        rw [show extractText (convertOne msg).content = "" from hc]
        rfl
  all_goals (simp only [toModelMessages] at hm; exact absurd hm (List.not_mem_nil m))

/-- Witness for C5 at a concrete input: the Scenario 2 output message. -/
theorem adapter_output_invariant_witness :
    ((⟨"user", "valid"⟩ : ModelMessage) ∈ toModelMessages scenario2Input)
    ∧ (ModelMessage.content ⟨"user", "valid"⟩ ≠ ""
        ∧ (ModelMessage.role ⟨"user", "valid"⟩ = "user"
            ∨ ModelMessage.role ⟨"user", "valid"⟩ = "assistant"
            ∨ ModelMessage.role ⟨"user", "valid"⟩ = "system")) :=
  ⟨by decide, adapter_output_invariant scenario2Input ⟨"user", "valid"⟩ (by decide)⟩

/-- C9: on any input value that is not an array (null, undefined, wrong
type) the Message Adapter returns the empty list rather than raising. -/
theorem adapter_non_array_empty (v : Val) (h : v.isArray = false) :
    toModelMessages v = [] := by
  cases v
  case vArr msgs => simp [Val.isArray] at h
  all_goals rfl

/-- Witness for C9 at a concrete input: null. -/
theorem adapter_non_array_empty_witness :
    Val.isArray .vNull = false ∧ toModelMessages .vNull = [] :=
  ⟨rfl, adapter_non_array_empty .vNull rfl⟩

/-- A successful thresholdFilter step means the row parsed and its
similarity meets the threshold. -/
theorem thresholdFilter_eq_some {threshold : ℚ} {row : Row} {r : EmbeddingResult}
    (h : thresholdFilter threshold row = some r) :
    parseResult row = some r ∧ threshold ≤ r.similarity := by
  unfold thresholdFilter at h
  split at h
  · rename_i r0 hp
    split at h
    · obtain rfl := Option.some_injective _ h
      exact ⟨hp, by assumption⟩
    · exact absurd h (by simp)
  · exact absurd h (by simp)

/-- thresholdFilter succeeds exactly on parsed rows meeting the threshold. -/
theorem thresholdFilter_some_iff {threshold : ℚ} {row : Row} {r : EmbeddingResult} :
    thresholdFilter threshold row = some r
      ↔ (parseResult row = some r ∧ threshold ≤ r.similarity) := by
  refine ⟨thresholdFilter_eq_some, ?_⟩
  rintro ⟨hp, ht⟩
  unfold thresholdFilter
  rw [hp]
  simp [ht]

/-- parseResult passes the row's similarity through unchanged. -/
theorem parseResult_similarity {row : Row} {r : EmbeddingResult}
    (h : parseResult row = some r) : r.similarity = row.similarity := by
  unfold parseResult at h
  split at h
  · rename_i s
    rcases hm : parseMetadata row.metadata with _ | m <;> rw [hm] at h
    · exact absurd h (by simp)
    · simp only [Option.map_some'] at h
      obtain rfl := Option.some_injective _ h
      rfl
  · exact absurd h (by simp)

/-- C1: every result of a vector-store search with threshold T and limit L
has similarity at least T, the results are sorted by similarity descending,
and at most L results are returned (the first L by similarity are taken by
the SQL query before the threshold filter runs). -/
theorem search_threshold_sorted_limited (table : List StoredChunk) (limit : ℕ)
    (threshold : ℚ) :
    (∀ r ∈ search table limit threshold, threshold ≤ r.similarity)
    ∧ (search table limit threshold).Pairwise
        (fun a b : EmbeddingResult => b.similarity ≤ a.similarity)
    ∧ (search table limit threshold).length ≤ limit := by
  refine ⟨?_, ?_, ?_⟩
  · intro r hr
    obtain ⟨row, -, heq⟩ := List.mem_filterMap.mp hr
    exact (thresholdFilter_eq_some heq).2
  · have hsorted : List.Sorted chunkLE (List.insertionSort chunkLE table) :=
      List.sorted_insertionSort chunkLE table
    have htake : ((List.insertionSort chunkLE table).take limit).Pairwise chunkLE :=
      List.Pairwise.sublist (List.take_sublist limit _) hsorted
    have hrows : (vectorSearchQuery table limit).Pairwise
        (fun r1 r2 : Row => r2.similarity ≤ r1.similarity) := by
      unfold vectorSearchQuery
      exact (List.pairwise_map).mpr (htake.imp fun h => by
        simpa using sub_le_sub_left h 1)
    refine hrows.filterMap (thresholdFilter threshold) ?_
    intro a b hab x hx y hy
    rw [Option.mem_def] at hx hy
    have hxs := parseResult_similarity (thresholdFilter_eq_some hx).1
    have hys := parseResult_similarity (thresholdFilter_eq_some hy).1
    rw [hxs, hys]
    exact hab
  · calc (search table limit threshold).length
        ≤ (vectorSearchQuery table limit).length := List.length_filterMap_le _ _
      _ ≤ limit := by
          unfold vectorSearchQuery
          rw [List.length_map, List.length_take]
          exact min_le_left _ _

/-- The SQL query on the demonstration table: rows ordered by distance with
their similarities computed. -/
theorem vectorSearchQuery_demo :
    vectorSearchQuery demoTable 5
      = [ ⟨.vStr "good1", .vObj [("node_id", .vStr "NODE_01")], 9/10⟩,
          ⟨.vNull, .vNull, 4/5⟩,
          ⟨.vStr "good2", .vObj [], 7/10⟩ ] := by
  norm_num [vectorSearchQuery, List.insertionSort, List.orderedInsert, chunkLE, demoTable]

/-- The search on the demonstration table with threshold 0.3: both valid
chunks pass, and the malformed middle row is skipped. -/
theorem search_demo :
    search demoTable 5 (3/10) = [demoResult1, demoResult2] := by
  have h1 : thresholdFilter (3/10) ⟨.vStr "good1", .vObj [("node_id", .vStr "NODE_01")], 9/10⟩
      = some demoResult1 := by
    have hp : parseResult ⟨.vStr "good1", .vObj [("node_id", .vStr "NODE_01")], 9/10⟩
        = some demoResult1 := rfl
    simp only [thresholdFilter, hp]
    norm_num [demoResult1]
  have h2 : thresholdFilter (3/10) ⟨.vNull, .vNull, 4/5⟩ = none := rfl
  have h3 : thresholdFilter (3/10) ⟨.vStr "good2", .vObj [], 7/10⟩ = some demoResult2 := by
    have hp : parseResult ⟨.vStr "good2", .vObj [], 7/10⟩ = some demoResult2 := rfl
    simp only [thresholdFilter, hp]
    norm_num [demoResult2]
  rw [search, vectorSearchQuery_demo]
  simp only [List.filterMap_cons, List.filterMap_nil, h1, h2, h3]

/-- Witness for C1 at a concrete input: on the demonstration table, the
first returned result meets the threshold. -/
theorem search_threshold_sorted_limited_witness :
    demoResult1 ∈ search demoTable 5 (3/10)
    ∧ (3/10 : ℚ) ≤ demoResult1.similarity := by
  have hmem : demoResult1 ∈ search demoTable 5 (3/10) := by
    rw [search_demo]
    exact List.mem_cons_self _ _
  exact ⟨hmem, (search_threshold_sorted_limited demoTable 5 (3/10)).1 demoResult1 hmem⟩

/-- C6: a stored row that fails to parse against the expected result shape
is skipped rather than aborting the search: a result is returned exactly
when some row of the SQL output parses to it and meets the threshold; on
the demonstration table the malformed middle row is skipped while both
validly-shaped rows are returned. -/
theorem search_skips_malformed :
    (∀ (table : List StoredChunk) (limit : ℕ) (threshold : ℚ) (r : EmbeddingResult),
        r ∈ search table limit threshold
          ↔ ∃ row ∈ vectorSearchQuery table limit,
              parseResult row = some r ∧ threshold ≤ r.similarity)
    ∧ search demoTable 5 (3/10) = [demoResult1, demoResult2] := by
  refine ⟨?_, search_demo⟩
  intro table limit threshold r
  unfold search
  rw [List.mem_filterMap]
  constructor
  · rintro ⟨row, hrow, heq⟩
    obtain ⟨hp, ht⟩ := thresholdFilter_eq_some heq
    exact ⟨row, hrow, hp, ht⟩
  · rintro ⟨row, hrow, hp, ht⟩
    exact ⟨row, hrow, thresholdFilter_some_iff.mpr ⟨hp, ht⟩⟩

/-- C2: the Search Tool returns exactly query, found false and an empty
document list when the vector-store search returned zero results, and
otherwise query, found true and one document per result with similarity
rounded to 3 decimal places (a multiple of 1/1000 within 1/2000 of the raw
similarity); the tool invocation is this mapping applied to the store's
search output. -/
theorem tool_output_shape (query : String) (results : List EmbeddingResult) :
    (results = [] → cvSearchExecute query results
        = { query := query, found := false, documents := [] })
    ∧ (results ≠ [] → cvSearchExecute query results
        = { query := query, found := true, documents := results.map toolDocument })
    ∧ (∀ r ∈ results,
        ((toolDocument r).similarity * 1000).den = 1
        ∧ |(toolDocument r).similarity - r.similarity| ≤ 1/2000)
    ∧ ∀ (maxResults : Option ℕ) (table : List StoredChunk),
        cvSearchTool query maxResults table
          = cvSearchExecute query
              (search table (cvSearchToolSearchCall maxResults).limit
                (cvSearchToolSearchCall maxResults).threshold) := by
  refine ⟨?_, ?_, ?_, fun _ _ => rfl⟩
  · intro h
    subst h
    rfl
  · intro h
    rw [cvSearchExecute, if_neg]
    simpa using h
  · intro r _
    have hsim : (toolDocument r).similarity = roundTo3 r.similarity := rfl
    constructor
    · have hmul : roundTo3 r.similarity * 1000
          = ((⌊r.similarity * 1000 + 1/2⌋ : ℤ) : ℚ) := by
        rw [roundTo3, jsRound]
        field_simp
      rw [hsim, hmul, Rat.den_intCast]
    · have h1 : jsRound (r.similarity * 1000) ≤ r.similarity * 1000 + 1/2 := by
        rw [jsRound]
        exact Int.floor_le _
      have h2 : r.similarity * 1000 - 1/2 ≤ jsRound (r.similarity * 1000) := by
        have := Int.lt_floor_add_one (r.similarity * 1000 + 1/2)
        rw [jsRound]
        linarith
      have h3 : roundTo3 r.similarity = jsRound (r.similarity * 1000) / 1000 := rfl
      rw [hsim, h3, abs_le]
      constructor <;> [linarith; linarith]

/-- Witness for C2 at concrete inputs: the empty result list and a
singleton result list. -/
theorem tool_output_shape_witness :
    cvSearchExecute "q" [] = { query := "q", found := false, documents := [] }
    ∧ cvSearchExecute "q" [demoResult1]
        = { query := "q", found := true, documents := List.map toolDocument [demoResult1] }
    ∧ ((toolDocument demoResult1).similarity * 1000).den = 1
    ∧ |(toolDocument demoResult1).similarity - demoResult1.similarity| ≤ 1/2000 :=
  ⟨(tool_output_shape "q" []).1 rfl,
   (tool_output_shape "q" [demoResult1]).2.1 (by simp),
   ((tool_output_shape "q" [demoResult1]).2.2.1 demoResult1 (by simp)).1,
   ((tool_output_shape "q" [demoResult1]).2.2.1 demoResult1 (by simp)).2⟩

/-- C10: every Search Tool result document of a returned result is present
in the tool output, and a result whose metadata lacks node_id gets nodeId
UNKNOWN while one whose metadata lacks category gets category general. -/
theorem tool_document_fallbacks (query : String) (results : List EmbeddingResult)
    (r : EmbeddingResult) (hr : r ∈ results) :
    toolDocument r ∈ (cvSearchExecute query results).documents
    ∧ (r.metadata.node_id = none → (toolDocument r).nodeId = "UNKNOWN")
    ∧ (r.metadata.category = none → (toolDocument r).category = "general") := by
  refine ⟨?_, ?_, ?_⟩
  · have hne : results.length ≠ 0 := by
      intro h0
      rw [List.length_eq_zero] at h0
      subst h0
      exact absurd hr (List.not_mem_nil r)
    rw [cvSearchExecute, if_neg hne]
    exact List.mem_map_of_mem _ hr
  · intro h
    simp [toolDocument, h]
  · intro h
    simp [toolDocument, h]

/-- Witness for C10 at a concrete input: a result with neither node_id nor
category in its metadata. -/
theorem tool_document_fallbacks_witness :
    demoNoMeta ∈ [demoNoMeta]
    ∧ toolDocument demoNoMeta ∈ (cvSearchExecute "q" [demoNoMeta]).documents
    ∧ (toolDocument demoNoMeta).nodeId = "UNKNOWN"
    ∧ (toolDocument demoNoMeta).category = "general" := by
  have h := tool_document_fallbacks "q" [demoNoMeta] demoNoMeta (by simp)
  exact ⟨by simp, h.1, h.2.1 rfl, h.2.2 rfl⟩

/-- Counterexample to C3 as stated: for an agent constructed with an
overridden similarity threshold of 0.9, the merged configuration carries
0.9 but the search tool still searches with the built-in default threshold
0.3, not the agent's configured threshold. -/
theorem agent_search_call_counterexample :
    (mergeAgentConfig { similarityThreshold := some (9/10) }).similarityThreshold = 9/10
    ∧ (createCVAgentSearchCall { similarityThreshold := some (9/10) } none).threshold = 3/10
    ∧ (createCVAgentSearchCall { similarityThreshold := some (9/10) } none).threshold
        ≠ (mergeAgentConfig { similarityThreshold := some (9/10) }).similarityThreshold := by
  refine ⟨rfl, rfl, ?_⟩
  show (3 : ℚ)/10 ≠ 9/10
  norm_num

/-- C3 as amended: for every Search Tool invocation under any agent, the
vector-store search is performed with limit = maxResults ??
DEFAULT_AGENT_CONFIG.defaultSearchLimit and with the built-in default
similarity threshold; caller overrides of defaultSearchLimit and
similarityThreshold in the agent configuration do not reach the tool. -/
theorem agent_search_call_uses_defaults (o : AgentConfigOverrides)
    (maxResults : Option ℕ) :
    createCVAgentSearchCall o maxResults
      = { limit := maxResults.getD DEFAULT_AGENT_CONFIG.defaultSearchLimit
          threshold := DEFAULT_AGENT_CONFIG.similarityThreshold } := rfl

/-- C8: a missing (or empty) vector-store connection string or model
gateway credential yields the configuration error (status 500); with the
environment present, a body failing chatRequestSchema or a message list
adapting to the empty list yields the validation error (status 400); the
two statuses differ and neither error outcome reaches the agent, so no
embedding or model call is made. -/
theorem chat_post_error_handling (databaseUrl apiKey : Option String) (body : Val) :
    ((envTruthy databaseUrl = false ∨ envTruthy apiKey = false) →
        chatPOST databaseUrl apiKey body = .configError)
    ∧ (envTruthy databaseUrl = true → envTruthy apiKey = true →
        chatRequestParse body = none →
        chatPOST databaseUrl apiKey body = .validationError)
    ∧ (∀ msgs, envTruthy databaseUrl = true → envTruthy apiKey = true →
        chatRequestParse body = some msgs → toModelMessages (.vArr msgs) = [] →
        chatPOST databaseUrl apiKey body = .validationError)
    ∧ responseStatus .configError = 500
    ∧ responseStatus .validationError = 400
    ∧ modelCallMade .configError = false
    ∧ modelCallMade .validationError = false := by
  refine ⟨?_, ?_, ?_, rfl, rfl, rfl, rfl⟩
  · intro h
    unfold chatPOST
    rcases h with h | h <;> rw [h] <;> simp
  · intro h1 h2 h3
    unfold chatPOST
    rw [h1, h2, h3]
    simp
  · intro msgs h1 h2 h3 h4
    unfold chatPOST
    rw [h1, h2, h3]
    simp [h4]

/-- Witness for C8 at concrete inputs: a missing database URL, an invalid
body, and a schema-valid body whose only message adapts to empty content. -/
theorem chat_post_error_handling_witness :
    chatPOST none (some "key") .vNull = .configError
    ∧ chatPOST (some "db") (some "key") .vNull = .validationError
    ∧ chatRequestParse (.vObj [("messages", .vArr [emptyPartsMsg])]) = some [emptyPartsMsg]
    ∧ toModelMessages (.vArr [emptyPartsMsg]) = []
    ∧ chatPOST (some "db") (some "key") (.vObj [("messages", .vArr [emptyPartsMsg])])
        = .validationError :=
  ⟨(chat_post_error_handling none (some "key") .vNull).1 (Or.inl rfl),
   (chat_post_error_handling (some "db") (some "key") .vNull).2.1 rfl rfl rfl,
   rfl, rfl,
   (chat_post_error_handling (some "db") (some "key")
      (.vObj [("messages", .vArr [emptyPartsMsg])])).2.2.1 [emptyPartsMsg] rfl rfl rfl rfl⟩

end CVSpec
